import Mathlib

/-!
Verification of the monthly reconciliation engine of `create_sheet.py`
(`generar_resumen`, lines 108-150), which merges two sparse monthly
aggregate tables (income `df_ingresos`, expense `df_egresos`) onto a
12-month calendar scaffold for a target year, zero-fills the gaps,
computes `Balance = Monto_Ingresos - Monto_Egresos` with exact decimal
arithmetic, sorts by (year, month) and attaches month names.

Modelling notes:
* A dataframe row of the aggregate queries (`SELECT year .. 'Año',
  month .. 'Mes', SUM(..) 'Monto'`) is a record of two integers and an
  exact amount.  MySQL `SUM` over a `DECIMAL` column yields Python
  `Decimal` values; exact decimals embed into `ℚ`, so amounts are `ℚ`.
* `pd.merge(.., how='left')` followed by `.fillna(0)` is modelled by
  `leftMergeFill`: each scaffold key keeps one output row per matching
  input row (in input order), and a single zero-amount row when no
  input row matches.
* `pd.merge(.., how='outer', ..).fillna(0)` is modelled by
  `outerMergeFill`: matched pairs first (left order, cross product per
  key), then right-only rows.  pandas additionally orders outer-join
  keys, but the code re-sorts by (`Año`, `Mes`) immediately afterwards
  (line 136), so that intermediate order never reaches the output.
* `Decimal(str(x))` on values that are already exact decimals (or the
  integer fill value 0) reproduces them exactly; on `ℚ` it is the
  identity `decimalOfStr`.
* `df.sort_values(by=['Año', 'Mes'])` is modelled by `insertionSort`
  under the lexicographic order `rowLe`; the lists we sort have
  pairwise-distinct keys, where every correct sort agrees.
* Python `int(anio)` (line 115) is modelled by `pythonInt`, covering
  sign-prefixed ASCII decimal strings with surrounding whitespace; it
  raises `ValueError` (models as `none`) exactly when parsing fails.
-/

attribute [local semireducible] Rat.sub Rat.add Rat.mul Rat.ofScientific

/-- One row of an aggregate query result: columns `Año`, `Mes`, `Monto`. -/
structure AggRow where
  anio : Int
  mes : Int
  monto : ℚ
deriving DecidableEq, Repr

/-- One row after the outer merge of the two completed series:
columns `Año`, `Mes`, `Monto_Ingresos`, `Monto_Egresos`. -/
structure MergedRow where
  anio : Int
  mes : Int
  montoIngresos : ℚ
  montoEgresos : ℚ
deriving DecidableEq, Repr

/-- A merged row with the computed `Balance` column (line 133). -/
structure BalRow where
  anio : Int
  mes : Int
  montoIngresos : ℚ
  montoEgresos : ℚ
  balance : ℚ
deriving DecidableEq, Repr

/-- One row of the final summary table, in the column order selected at
line  147: `Año`, `Mes`, `Mes_Nombre`, `Monto_Ingresos`, `Monto_Egresos`,
`Balance`. -/
structure ResumenRow where
  anio : Int
  mes : Int
  mesNombre : String
  montoIngresos : ℚ
  montoEgresos : ℚ
  balance : ℚ
deriving DecidableEq, Repr

/-- The key predicate used by every merge: the row matches (`Año`, `Mes`)
= (`y`, `m`). -/
def keyMatch (y m : Int) (r : AggRow) : Bool :=
  r.anio == y && r.mes == m

/-- Model of `meses_completos` (lines 114-117): the 12-month scaffold
`{'Año': [int(anio)]*12, 'Mes': range(1, 13)}`. -/
def mesesCompletos (anio : Int) : List (Int × Int) :=
  (List.range 12).map (fun (k : Nat) => (anio, (k : Int) + 1))

/-- Model of `pd.merge(meses_completos, df, on=['Año','Mes'], how='left')
.infer_objects(copy=False).fillna(0)` (lines 120-123): every scaffold key
is kept; a key with no matching input row gets `Monto = 0`; a key with
matching rows yields one output row per match, in input order. -/
def leftMergeFill (scaffold : List (Int × Int)) (rows : List AggRow) :
    List AggRow :=
  scaffold.flatMap (fun p =>
    let ms := rows.filter (keyMatch p.1 p.2)
    if ms.isEmpty then [⟨p.1, p.2, 0⟩]
    else ms.map (fun r => ⟨p.1, p.2, r.monto⟩))

/-- Model of `pd.merge(ing, egr, on=['Año','Mes'], how='outer',
suffixes=('_Ingresos','_Egresos')).fillna(0)` (lines 126-128): matched
pairs (per-key cross product, left order), unmatched left rows with
`Monto_Egresos = 0`, then right-only rows with `Monto_Ingresos = 0`. -/
def outerMergeFill (l r : List AggRow) : List MergedRow :=
  let matched := l.flatMap (fun a =>
    let ms := r.filter (keyMatch a.anio a.mes)
    if ms.isEmpty then [⟨a.anio, a.mes, a.monto, 0⟩]
    else ms.map (fun b => ⟨a.anio, a.mes, a.monto, b.monto⟩))
  let rightOnly := r.filter (fun b => !(l.any (keyMatch b.anio b.mes)))
  matched ++ rightOnly.map (fun b => ⟨b.anio, b.mes, 0, b.monto⟩)

/-- Model of `Decimal(str(x))` (lines 131-132).  The values reaching this point
are MySQL `DECIMAL` sums or the integer fill value `0`; `str` round-trips
them exactly and `Decimal` reconstructs the same number, so on the exact
amounts of the model this conversion is the identity. -/
def decimalOfStr (x : ℚ) : ℚ := x

/-- Lines 131-133: convert both amount columns through `Decimal(str(.))`
and add the column `Balance = Monto_Ingresos - Monto_Egresos`, computed
by exact `Decimal` subtraction. -/
def computeBalance (rows : List MergedRow) : List BalRow :=
  rows.map (fun r =>
    ⟨r.anio, r.mes, decimalOfStr r.montoIngresos, decimalOfStr r.montoEgresos,
      decimalOfStr r.montoIngresos - decimalOfStr r.montoEgresos⟩)

/-- The sort key of `df_resumen.sort_values(by=['Año','Mes'])` (line 136):
lexicographic on (`Año`, `Mes`). -/
def rowLe (a b : BalRow) : Prop :=
  a.anio < b.anio ∨ (a.anio = b.anio ∧ a.mes ≤ b.mes)

instance (a b : BalRow) : Decidable (rowLe a b) := by
  unfold rowLe; infer_instance

/-- Model of `meses_nombres` (lines 139-144): the fixed 12-entry month-name table.
Months outside 1..12 are never looked up by the code (all merge keys come
from the scaffold); `pandas.map` would produce `NaN` there, modelled by
the empty string. -/
def mesNombre (m : Int) : String :=
  if m = 1 then "Enero" else if m = 2 then "Febrero"
  else if m = 3 then "Marzo" else if m = 4 then "Abril"
  else if m = 5 then "Mayo" else if m = 6 then "Junio"
  else if m = 7 then "Julio" else if m = 8 then "Agosto"
  else if m = 9 then "Septiembre" else if m = 10 then "Octubre"
  else if m = 11 then "Noviembre" else if m = 12 then "Diciembre"
  else ""

/-- Model of `generar_resumen(df_ingresos, df_egresos, anio)` (lines 108-150) with
the year already converted by `int(anio)`: build the scaffold, left-merge
both inputs onto it with zero fill, outer-merge the two series, compute
the decimal balance, sort by (`Año`, `Mes`), attach `Mes_Nombre` and
select the output columns. -/
def generar_resumen (df_ingresos df_egresos : List AggRow) (anio : Int) :
    List ResumenRow :=
  let meses := mesesCompletos anio
  let ingresosCompleto := leftMergeFill meses df_ingresos
  let egresosCompleto := leftMergeFill meses df_egresos
  let resumen := computeBalance (outerMergeFill ingresosCompleto egresosCompleto)
  let sorted := List.insertionSort rowLe resumen
  sorted.map (fun r =>
    ⟨r.anio, r.mes, mesNombre r.mes, r.montoIngresos, r.montoEgresos, r.balance⟩)

/-- The ASCII whitespace characters Python strips around an `int()`
argument. -/
def isPySpace (c : Char) : Bool :=
  c == ' ' || c == '\t' || c == '\n' || c == '\r' || c == '\x0b' || c == '\x0c'

/-- Python `int(s)` on a string (line 115 does `int(anio)`): strip
surrounding whitespace, allow one optional sign, then at least one ASCII
decimal digit; everything else raises `ValueError`, modelled as `none`
(digit-group underscores and non-ASCII digits are left out of the
model). -/
def pythonInt (s : String) : Option Int :=
  let stripped := ((s.data.dropWhile isPySpace).reverse.dropWhile
    isPySpace).reverse
  let signed : Bool × List Char :=
    match stripped with
    | '-' :: rest => (true, rest)
    | '+' :: rest => (false, rest)
    | rest => (false, rest)
  if !signed.2.isEmpty && signed.2.all Char.isDigit then
    let n : Nat := signed.2.foldl (fun acc c => 10 * acc + (c.toNat - 48)) 0
    some (if signed.1 then -(n : Int) else (n : Int))
  else
    none

/-- Model of `generar_resumen` as called with the raw year string: `int(anio)` at
line 115 runs before any row is touched, and a parse failure propagates
as an exception (`ValueError`) aborting the reconciliation. -/
def generar_resumen_str (df_ingresos df_egresos : List AggRow)
    (anio : String) : Except String (List ResumenRow) :=
  match pythonInt anio with
  | none => .error "ValueError"
  | some y => .ok (generar_resumen df_ingresos df_egresos y)

/-- The amount the left merge finds for key (`y`, `m`): the amount of the
first matching row, `0` when there is none. -/
def lookupAmt (rows : List AggRow) (y m : Int) : ℚ :=
  match rows.find? (keyMatch y m) with
  | some r => r.monto
  | none => 0

/-- A valid `MonthlyAggregate` dataset has at most one row per
(`Año`, `Mes`) key (the source queries `GROUP BY` year and month). -/
def uniqueKeys (rows : List AggRow) : Prop :=
  rows.Pairwise (fun a b => (a.anio, a.mes) ≠ (b.anio, b.mes))

instance (rows : List AggRow) : Decidable (uniqueKeys rows) := by
  unfold uniqueKeys; infer_instance

/-- The row `generar_resumen` emits for month index `k` (month `k+1`)
when both inputs have unique keys. -/
def resumenRowAt (df_ingresos df_egresos : List AggRow) (anio : Int)
    (k : Nat) : ResumenRow :=
  ⟨anio, (k : Int) + 1, mesNombre ((k : Int) + 1),
    lookupAmt df_ingresos anio ((k : Int) + 1),
    lookupAmt df_egresos anio ((k : Int) + 1),
    lookupAmt df_ingresos anio ((k : Int) + 1) -
      lookupAmt df_egresos anio ((k : Int) + 1)⟩

/-- The row of the sorted pre-output table for month index `k` (before
month names are attached), when both inputs have unique keys. -/
def balRowAt (df_ingresos df_egresos : List AggRow) (anio : Int)
    (k : Nat) : BalRow :=
  ⟨anio, (k : Int) + 1, lookupAmt df_ingresos anio ((k : Int) + 1),
    lookupAmt df_egresos anio ((k : Int) + 1),
    lookupAmt df_ingresos anio ((k : Int) + 1) -
      lookupAmt df_egresos anio ((k : Int) + 1)⟩

/-! ### Helper lemmas -/

theorem flatMap_eq_map_of_singleton {α β : Type} {L : List α}
    {f : α → List β} {g : α → β} (h : ∀ x ∈ L, f x = [g x]) :
    L.flatMap f = L.map g := by
  induction L with
  | nil => rfl
  | cons a as ih =>
    rw [List.flatMap_cons, h a (List.mem_cons_self a as), List.map_cons,
      ih (fun x hx => h x (List.mem_cons_of_mem a hx)), List.singleton_append]

theorem flatMap_congr_mem {α β : Type} {L : List α} {f g : α → List β}
    (h : ∀ x ∈ L, f x = g x) : L.flatMap f = L.flatMap g := by
  induction L with
  | nil => rfl
  | cons a as ih =>
    rw [List.flatMap_cons, List.flatMap_cons, h a (List.mem_cons_self a as),
      ih (fun x hx => h x (List.mem_cons_of_mem a hx))]

theorem filter_keyMatch_of_unique {rows : List AggRow} {y m : Int}
    (h : uniqueKeys rows) :
    rows.filter (keyMatch y m) = (rows.find? (keyMatch y m)).toList := by
  induction rows with
  | nil => rfl
  | cons a as ih =>
    rw [uniqueKeys, List.pairwise_cons] at h
    by_cases hm : keyMatch y m a = true
    · rw [List.filter_cons, if_pos hm, List.find?_cons_of_pos _ hm]
      have h0 : as.filter (keyMatch y m) = [] := by
        rw [List.filter_eq_nil_iff]
        intro b hb hbm
        apply h.1 b hb
        simp only [keyMatch, Bool.and_eq_true, beq_iff_eq] at hm hbm
        rw [hm.1, hm.2, hbm.1, hbm.2]
      rw [h0]
      rfl
    · rw [List.filter_cons, if_neg hm, List.find?_cons_of_neg _ hm]
      exact ih h.2

theorem leftMergeFill_unique {rows : List AggRow} (h : uniqueKeys rows)
    (scaffold : List (Int × Int)) :
    leftMergeFill scaffold rows
      = scaffold.map (fun p => ⟨p.1, p.2, lookupAmt rows p.1 p.2⟩) := by
  unfold leftMergeFill
  apply flatMap_eq_map_of_singleton
  intro p _
  rw [filter_keyMatch_of_unique h]
  unfold lookupAmt
  cases hf : rows.find? (keyMatch p.1 p.2) with
  | none => rfl
  | some r => rfl

theorem mesesCompletos_pairwise (y : Int) :
    (mesesCompletos y).Pairwise (fun p q => p ≠ q) := by
  unfold mesesCompletos
  rw [List.pairwise_map]
  apply (List.pairwise_lt_range 12).imp
  intro a b hab hc
  have h2 := congrArg Prod.snd hc
  simp only at h2
  omega

theorem mesesCompletos_mem {y : Int} {p : Int × Int}
    (hp : p ∈ mesesCompletos y) : p.1 = y ∧ 1 ≤ p.2 ∧ p.2 ≤ 12 := by
  unfold mesesCompletos at hp
  rcases List.mem_map.mp hp with ⟨k, hk, rfl⟩
  rw [List.mem_range] at hk
  refine ⟨rfl, by omega, by omega⟩

theorem filter_map_keyMatch {sc : List (Int × Int)} (G : Int × Int → ℚ)
    (hsc : sc.Pairwise (fun p q => p ≠ q)) {q : Int × Int} (hq : q ∈ sc) :
    ((sc.map (fun p => (⟨p.1, p.2, G p⟩ : AggRow))).filter
        (keyMatch q.1 q.2)) = [⟨q.1, q.2, G q⟩] := by
  induction sc with
  | nil => cases hq
  | cons a as ih =>
    rw [List.pairwise_cons] at hsc
    rw [List.map_cons, List.filter_cons]
    rcases List.mem_cons.mp hq with rfl | hq'
    · rw [if_pos (by simp [keyMatch])]
      have h0 : (as.map (fun p => (⟨p.1, p.2, G p⟩ : AggRow))).filter
          (keyMatch q.1 q.2) = [] := by
        rw [List.filter_eq_nil_iff]
        intro b hb
        rcases List.mem_map.mp hb with ⟨p, hp, rfl⟩
        simp only [keyMatch, Bool.and_eq_true, beq_iff_eq]
        intro hcontra
        exact hsc.1 p hp (Prod.ext hcontra.1.symm hcontra.2.symm)
      rw [h0]
    · have hne := hsc.1 q hq'
      rw [if_neg (by
        simp only [keyMatch, Bool.and_eq_true, beq_iff_eq]
        intro hcontra
        exact hne (Prod.ext hcontra.1 hcontra.2)), ih hsc.2 hq']

theorem outerMergeFill_maps {sc : List (Int × Int)} (F G : Int × Int → ℚ)
    (hsc : sc.Pairwise (fun p q => p ≠ q)) :
    outerMergeFill (sc.map (fun p => ⟨p.1, p.2, F p⟩))
        (sc.map (fun p => ⟨p.1, p.2, G p⟩))
      = sc.map (fun p => ⟨p.1, p.2, F p, G p⟩) := by
  unfold outerMergeFill
  have hro : (sc.map (fun p => (⟨p.1, p.2, G p⟩ : AggRow))).filter
      (fun b => !((sc.map (fun p => (⟨p.1, p.2, F p⟩ : AggRow))).any
        (keyMatch b.anio b.mes))) = [] := by
    rw [List.filter_eq_nil_iff]
    intro b hb
    rcases List.mem_map.mp hb with ⟨p, hp, rfl⟩
    simp only [Bool.not_eq_true', Bool.not_eq_false]
    rw [List.any_eq_true]
    exact ⟨⟨p.1, p.2, F p⟩, List.mem_map_of_mem _ hp, by simp [keyMatch]⟩
  rw [hro]
  simp only [List.map_nil, List.append_nil]
  rw [List.flatMap_map]
  apply flatMap_eq_map_of_singleton
  intro p hp
  simp only
  rw [filter_map_keyMatch G hsc hp]
  rfl

theorem generar_resumen_def (df_ingresos df_egresos : List AggRow)
    (anio : Int) :
    generar_resumen df_ingresos df_egresos anio
      = (List.insertionSort rowLe (computeBalance (outerMergeFill
          (leftMergeFill (mesesCompletos anio) df_ingresos)
          (leftMergeFill (mesesCompletos anio) df_egresos)))).map
        (fun r => ⟨r.anio, r.mes, mesNombre r.mes, r.montoIngresos,
          r.montoEgresos, r.balance⟩) := rfl

theorem presort_eq {df_ingresos df_egresos : List AggRow} {anio : Int}
    (hi : uniqueKeys df_ingresos) (he : uniqueKeys df_egresos) :
    computeBalance (outerMergeFill
        (leftMergeFill (mesesCompletos anio) df_ingresos)
        (leftMergeFill (mesesCompletos anio) df_egresos))
      = (List.range 12).map (balRowAt df_ingresos df_egresos anio) := by
  rw [leftMergeFill_unique hi, leftMergeFill_unique he,
    outerMergeFill_maps (fun p => lookupAmt df_ingresos p.1 p.2)
      (fun p => lookupAmt df_egresos p.1 p.2) (mesesCompletos_pairwise anio)]
  rfl

theorem balRowAt_sorted (df_ingresos df_egresos : List AggRow) (anio : Int) :
    List.Sorted rowLe
      ((List.range 12).map (balRowAt df_ingresos df_egresos anio)) := by
  apply List.Pairwise.map _ _ (List.pairwise_lt_range 12)
  intro a b hab
  exact Or.inr ⟨rfl, by unfold balRowAt; simp only; omega⟩

theorem generar_resumen_normal (df_ingresos df_egresos : List AggRow)
    (anio : Int) (hi : uniqueKeys df_ingresos) (he : uniqueKeys df_egresos) :
    generar_resumen df_ingresos df_egresos anio
      = (List.range 12).map (resumenRowAt df_ingresos df_egresos anio) := by
  rw [generar_resumen_def, presort_eq hi he,
    (balRowAt_sorted df_ingresos df_egresos anio).insertionSort_eq]
  rfl

theorem lookupAmt_mem {rows : List AggRow} {r : AggRow}
    (h : uniqueKeys rows) (hr : r ∈ rows) :
    lookupAmt rows r.anio r.mes = r.monto := by
  unfold lookupAmt
  have hf : rows.find? (keyMatch r.anio r.mes) = some r := by
    induction rows with
    | nil => cases hr
    | cons a as ih =>
      rw [uniqueKeys, List.pairwise_cons] at h
      rcases List.mem_cons.mp hr with rfl | hr'
      · exact List.find?_cons_of_pos _ (by simp [keyMatch])
      · rw [List.find?_cons_of_neg _ (by
          simp only [keyMatch, Bool.and_eq_true, beq_iff_eq]
          intro hcontra
          exact h.1 r hr' (by rw [hcontra.1, hcontra.2]))]
        exact ih h.2 hr'
  rw [hf]

theorem lookupAmt_absent {rows : List AggRow} {y m : Int}
    (h : ∀ r ∈ rows, ¬(r.anio = y ∧ r.mes = m)) :
    lookupAmt rows y m = 0 := by
  unfold lookupAmt
  rw [List.find?_eq_none.mpr (by
    intro r hr
    simp only [keyMatch, Bool.and_eq_true, beq_iff_eq]
    exact fun hc => h r hr ⟨hc.1, hc.2⟩)]

theorem leftMergeFill_cons_nomatch {scaffold : List (Int × Int)}
    {b : AggRow} (rows : List AggRow)
    (hb : ∀ p ∈ scaffold, keyMatch p.1 p.2 b = false) :
    leftMergeFill scaffold (b :: rows) = leftMergeFill scaffold rows := by
  unfold leftMergeFill
  apply flatMap_congr_mem
  intro p hp
  have hfil : List.filter (keyMatch p.1 p.2) (b :: rows)
      = List.filter (keyMatch p.1 p.2) rows := by
    rw [List.filter_cons, hb p hp]
    simp
  rw [hfil]

theorem keyMatch_scaffold_false_of_mes {y : Int} {b : AggRow}
    (hb : b.mes < 1 ∨ 12 < b.mes) :
    ∀ p ∈ mesesCompletos y, keyMatch p.1 p.2 b = false := by
  intro p hp
  have hm := (mesesCompletos_mem hp).2
  simp only [keyMatch, Bool.and_eq_false_iff, beq_eq_false_iff_ne, ne_eq]
  right
  omega

theorem keyMatch_scaffold_false_of_anio {y : Int} {b : AggRow}
    (hb : b.anio ≠ y) :
    ∀ p ∈ mesesCompletos y, keyMatch p.1 p.2 b = false := by
  intro p hp
  have ha := (mesesCompletos_mem hp).1
  simp only [keyMatch, Bool.and_eq_false_iff, beq_eq_false_iff_ne, ne_eq]
  left
  rw [ha]
  exact hb

/-! ### Claim theorems -/

/-- C1: for every pair of valid input datasets (at most one row per
(year, month) key, as the aggregate queries guarantee) and target year,
the reconciled table has exactly 12 rows, one per month 1..12, each
tagged with the requested year, in ascending (year, month) order. -/
theorem generar_resumen_twelve_months (df_ingresos df_egresos : List AggRow)
    (anio : Int) (hi : uniqueKeys df_ingresos) (he : uniqueKeys df_egresos) :
    (generar_resumen df_ingresos df_egresos anio).map
        (fun r => (r.anio, r.mes))
      = (List.range 12).map (fun (k : Nat) => (anio, (k : Int) + 1)) := by
  rw [generar_resumen_normal _ _ _ hi he, List.map_map]
  rfl

/-- Witness for C1 at a concrete valid input. -/
theorem generar_resumen_twelve_months_witness :
    (generar_resumen [⟨2024, 3, (3 : ℚ)⟩] [⟨2024, 5, (7 : ℚ)⟩] 2024).map
        (fun r => (r.anio, r.mes))
      = (List.range 12).map (fun (k : Nat) => ((2024 : Int), (k : Int) + 1)) :=
  generar_resumen_twelve_months [⟨2024, 3, (3 : ℚ)⟩] [⟨2024, 5, (7 : ℚ)⟩]
    2024 (by decide) (by decide)

/-- C2: every row of the reconciled output satisfies
`Balance = Monto_Ingresos - Monto_Egresos` exactly, in exact (rational /
decimal) arithmetic, with no binary floating-point rounding error. -/
theorem balance_eq_income_sub_expense (df_ingresos df_egresos : List AggRow)
    (anio : Int) (r : ResumenRow)
    (hr : r ∈ generar_resumen df_ingresos df_egresos anio) :
    r.balance = r.montoIngresos - r.montoEgresos := by
  rw [generar_resumen_def] at hr
  rcases List.mem_map.mp hr with ⟨b, hb, rfl⟩
  rw [List.mem_insertionSort] at hb
  unfold computeBalance at hb
  rcases List.mem_map.mp hb with ⟨m, hm, rfl⟩
  rfl

/-- Witness for C2 at a concrete row of a concrete run. -/
theorem balance_eq_income_sub_expense_witness :
    (⟨2025, 1, "Enero", 0, 0, 0⟩ : ResumenRow).balance
      = (⟨2025, 1, "Enero", 0, 0, 0⟩ : ResumenRow).montoIngresos
        - (⟨2025, 1, "Enero", 0, 0, 0⟩ : ResumenRow).montoEgresos :=
  balance_eq_income_sub_expense [] [] 2025 ⟨2025, 1, "Enero", 0, 0, 0⟩
    (by decide)

/-- C3 counterexample: a month-13 row raises nothing; the reconciliation
returns a full 12-row table and the amount 5 is silently dropped (every
output amount is zero), contradicting the claimed
`InvalidAggregateRow` abort. -/
theorem month13_produces_full_table :
    (generar_resumen [⟨2024, 13, (5 : ℚ)⟩] [] 2024).length = 12 ∧
      ∀ r ∈ generar_resumen [⟨2024, 13, (5 : ℚ)⟩] [] 2024,
        r.montoIngresos = 0 ∧ r.montoEgresos = 0 ∧ r.balance = 0 := by
  decide

/-- C3 amended: a row whose month lies outside [1,12] (in either input)
is silently ignored — it never matches the 12-month scaffold of the left
join, so the output equals the output without that row; no error is
raised and no output is withheld. -/
theorem month_out_of_range_silently_ignored
    (df_ingresos df_egresos : List AggRow) (anio : Int) (bi be : AggRow)
    (hbi : bi.mes < 1 ∨ 12 < bi.mes) (hbe : be.mes < 1 ∨ 12 < be.mes) :
    generar_resumen (bi :: df_ingresos) df_egresos anio
        = generar_resumen df_ingresos df_egresos anio ∧
      generar_resumen df_ingresos (be :: df_egresos) anio
        = generar_resumen df_ingresos df_egresos anio := by
  constructor
  · rw [generar_resumen_def, generar_resumen_def,
      leftMergeFill_cons_nomatch _ (keyMatch_scaffold_false_of_mes hbi)]
  · rw [generar_resumen_def, generar_resumen_def,
      leftMergeFill_cons_nomatch _ (keyMatch_scaffold_false_of_mes hbe)]

/-- Witness for the amended C3 at concrete out-of-range months 0 and 13. -/
theorem month_out_of_range_silently_ignored_witness :
    generar_resumen [⟨2024, 0, (1 : ℚ)⟩] [] 2024
        = generar_resumen [] [] 2024 ∧
      generar_resumen [] [⟨2024, 13, (2 : ℚ)⟩] 2024
        = generar_resumen [] [] 2024 :=
  month_out_of_range_silently_ignored [] [] 2024 ⟨2024, 0, (1 : ℚ)⟩
    ⟨2024, 13, (2 : ℚ)⟩ (by decide) (by decide)

/-- C4: with both input sequences empty the reconciliation succeeds and
produces the 12-row table for the target year in which every income,
expense and balance is zero. -/
theorem empty_inputs_all_zero (anio : Int) :
    generar_resumen [] [] anio
      = (List.range 12).map (fun (k : Nat) =>
          (⟨anio, (k : Int) + 1, mesNombre ((k : Int) + 1), 0, 0, 0⟩ :
            ResumenRow)) := by
  rw [generar_resumen_normal [] [] anio List.Pairwise.nil List.Pairwise.nil]
  apply List.map_congr_left
  intro k hk
  unfold resumenRowAt lookupAmt
  simp

/-- C5: an input row (target year, month M in [1,12], amount A) of a
valid dataset reaches the output row for month M unchanged, in the
income column for income rows and in the expense column for expense
rows. -/
theorem input_amount_preserved (df_ingresos df_egresos : List AggRow)
    (anio : Int) (hi : uniqueKeys df_ingresos) (he : uniqueKeys df_egresos) :
    (∀ r ∈ df_ingresos, r.anio = anio → 1 ≤ r.mes → r.mes ≤ 12 →
      ∃ out ∈ generar_resumen df_ingresos df_egresos anio,
        out.mes = r.mes ∧ out.montoIngresos = r.monto) ∧
    (∀ r ∈ df_egresos, r.anio = anio → 1 ≤ r.mes → r.mes ≤ 12 →
      ∃ out ∈ generar_resumen df_ingresos df_egresos anio,
        out.mes = r.mes ∧ out.montoEgresos = r.monto) := by
  rw [generar_resumen_normal _ _ _ hi he]
  constructor
  · intro r hr hy h1 h2
    refine ⟨resumenRowAt df_ingresos df_egresos anio ((r.mes - 1).toNat),
      List.mem_map_of_mem _ (List.mem_range.mpr (by omega)), ?_, ?_⟩
    · show ((r.mes - 1).toNat : Int) + 1 = r.mes
      omega
    · show lookupAmt df_ingresos anio (((r.mes - 1).toNat : Int) + 1)
        = r.monto
      have hm : ((r.mes - 1).toNat : Int) + 1 = r.mes := by omega
      rw [hm, ← hy]
      exact lookupAmt_mem hi hr
  · intro r hr hy h1 h2
    refine ⟨resumenRowAt df_ingresos df_egresos anio ((r.mes - 1).toNat),
      List.mem_map_of_mem _ (List.mem_range.mpr (by omega)), ?_, ?_⟩
    · show ((r.mes - 1).toNat : Int) + 1 = r.mes
      omega
    · show lookupAmt df_egresos anio (((r.mes - 1).toNat : Int) + 1)
        = r.monto
      have hm : ((r.mes - 1).toNat : Int) + 1 = r.mes := by omega
      rw [hm, ← hy]
      exact lookupAmt_mem he hr

/-- Witness for C5 at a concrete valid input. -/
theorem input_amount_preserved_witness :
    ∃ out ∈ generar_resumen [⟨2024, 3, (5 : ℚ)⟩] [⟨2024, 7, (2 : ℚ)⟩] 2024,
      out.mes = 3 ∧ out.montoIngresos = 5 :=
  (input_amount_preserved [⟨2024, 3, (5 : ℚ)⟩] [⟨2024, 7, (2 : ℚ)⟩] 2024
      (by decide) (by decide)).1 ⟨2024, 3, (5 : ℚ)⟩ (by decide) rfl
    (by decide) (by decide)

/-- C6: a month in 1..12 that appears in neither valid input dataset still
gets an output row, zero-filled: income 0, expense 0, balance 0. -/
theorem absent_month_zero_filled (df_ingresos df_egresos : List AggRow)
    (anio m : Int) (hi : uniqueKeys df_ingresos) (he : uniqueKeys df_egresos)
    (h1 : 1 ≤ m) (h2 : m ≤ 12)
    (hni : ∀ r ∈ df_ingresos, ¬(r.anio = anio ∧ r.mes = m))
    (hnE : ∀ r ∈ df_egresos, ¬(r.anio = anio ∧ r.mes = m)) :
    ∃ out ∈ generar_resumen df_ingresos df_egresos anio,
      out.anio = anio ∧ out.mes = m ∧ out.montoIngresos = 0 ∧
        out.montoEgresos = 0 ∧ out.balance = 0 := by
  rw [generar_resumen_normal _ _ _ hi he]
  have hm : ((m - 1).toNat : Int) + 1 = m := by omega
  refine ⟨resumenRowAt df_ingresos df_egresos anio ((m - 1).toNat),
    List.mem_map_of_mem _ (List.mem_range.mpr (by omega)), rfl, ?_, ?_, ?_, ?_⟩
  · show ((m - 1).toNat : Int) + 1 = m
    omega
  · show lookupAmt df_ingresos anio (((m - 1).toNat : Int) + 1) = 0
    rw [hm]
    exact lookupAmt_absent hni
  · show lookupAmt df_egresos anio (((m - 1).toNat : Int) + 1) = 0
    rw [hm]
    exact lookupAmt_absent hnE
  · show lookupAmt df_ingresos anio (((m - 1).toNat : Int) + 1)
        - lookupAmt df_egresos anio (((m - 1).toNat : Int) + 1) = 0
    rw [hm, lookupAmt_absent hni, lookupAmt_absent hnE]
    simp

/-- Witness for C6: month 4 appears in neither concrete input. -/
theorem absent_month_zero_filled_witness :
    ∃ out ∈ generar_resumen [⟨2024, 3, (5 : ℚ)⟩] [] 2024,
      out.anio = 2024 ∧ out.mes = 4 ∧ out.montoIngresos = 0 ∧
        out.montoEgresos = 0 ∧ out.balance = 0 :=
  absent_month_zero_filled [⟨2024, 3, (5 : ℚ)⟩] [] 2024 4 (by decide)
    (by decide) (by decide) (by decide) (by decide) (by decide)

/-- C7 counterexample: the string "-3" is not a positive integer, yet
`int("-3")` succeeds and the reconciliation runs to completion with
year -3 instead of failing — only unparseable strings abort. -/
theorem negative_year_not_rejected :
    pythonInt "-3" = some (-3) ∧
      generar_resumen_str [] [] "-3"
        = .ok (generar_resumen [] [] (-3)) := by
  exact ⟨rfl, rfl⟩

/-- C7 amended: the reconciliation aborts (with Python's `ValueError`
from `int(anio)`, before any row is processed) exactly when the year
string is not parseable as an integer; parseable non-positive years such
as "-3" or "0" are accepted. -/
theorem unparseable_year_aborts (df_ingresos df_egresos : List AggRow)
    (anio : String) (h : pythonInt anio = none) :
    generar_resumen_str df_ingresos df_egresos anio
      = .error "ValueError" := by
  unfold generar_resumen_str
  rw [h]

/-- Witness for the amended C7 at the concrete unparseable string "20x5". -/
theorem unparseable_year_aborts_witness :
    generar_resumen_str [] [] "20x5" = .error "ValueError" :=
  unparseable_year_aborts [] [] "20x5" (by decide)

/-- C8: the concrete scenario of the spec — one March income of 1500.50,
expenses 400.25 in March and 100.00 in July, year 2024 — yields the
expected 12-row table with balances 1100.25 (March), -100.00 (July) and
zeros elsewhere. -/
theorem scenario_march_july_2024 :
    generar_resumen [⟨2024, 3, (1500.5 : ℚ)⟩]
        [⟨2024, 3, (400.25 : ℚ)⟩, ⟨2024, 7, (100 : ℚ)⟩] 2024
      = [⟨2024, 1, "Enero", 0, 0, 0⟩,
         ⟨2024, 2, "Febrero", 0, 0, 0⟩,
         ⟨2024, 3, "Marzo", 1500.5, 400.25, 1100.25⟩,
         ⟨2024, 4, "Abril", 0, 0, 0⟩,
         ⟨2024, 5, "Mayo", 0, 0, 0⟩,
         ⟨2024, 6, "Junio", 0, 0, 0⟩,
         ⟨2024, 7, "Julio", 0, 100, -100⟩,
         ⟨2024, 8, "Agosto", 0, 0, 0⟩,
         ⟨2024, 9, "Septiembre", 0, 0, 0⟩,
         ⟨2024, 10, "Octubre", 0, 0, 0⟩,
         ⟨2024, 11, "Noviembre", 0, 0, 0⟩,
         ⟨2024, 12, "Diciembre", 0, 0, 0⟩] := by
  decide

/-- C9: the reconciliation is a pure function of its inputs — running it
twice on the same input sequences and target year yields identical
tables (same rows, same values, same order). -/
theorem generar_resumen_deterministic (df_ingresos df_egresos : List AggRow)
    (anio : Int) :
    generar_resumen df_ingresos df_egresos anio
      = generar_resumen df_ingresos df_egresos anio := rfl

/-- C10: a row whose year differs from the target year is silently
ignored — the left join matches on both year and month, so such a row
never matches the scaffold and the output equals the output computed
without it (its amount appears nowhere; its month stays zero-filled
unless target-year rows fill it). -/
theorem other_year_rows_ignored (df_ingresos df_egresos : List AggRow)
    (anio : Int) (bi be : AggRow)
    (hbi : bi.anio ≠ anio) (hbe : be.anio ≠ anio) :
    generar_resumen (bi :: df_ingresos) df_egresos anio
        = generar_resumen df_ingresos df_egresos anio ∧
      generar_resumen df_ingresos (be :: df_egresos) anio
        = generar_resumen df_ingresos df_egresos anio := by
  constructor
  · rw [generar_resumen_def, generar_resumen_def,
      leftMergeFill_cons_nomatch _ (keyMatch_scaffold_false_of_anio hbi)]
  · rw [generar_resumen_def, generar_resumen_def,
      leftMergeFill_cons_nomatch _ (keyMatch_scaffold_false_of_anio hbe)]

/-- Witness for C10: rows of year 2023 do not affect a 2024 run. -/
theorem other_year_rows_ignored_witness :
    generar_resumen [⟨2023, 5, (9 : ℚ)⟩] [] 2024
        = generar_resumen [] [] 2024 ∧
      generar_resumen [] [⟨2023, 6, (4 : ℚ)⟩] 2024
        = generar_resumen [] [] 2024 :=
  other_year_rows_ignored [] [] 2024 ⟨2023, 5, (9 : ℚ)⟩ ⟨2023, 6, (4 : ℚ)⟩
    (by decide) (by decide)
